import Mathlib

/-!
Shallow embedding of the CHIP-8 interpreter (package `interpreter`, file
containing `chip8`, `FetchInstruction`, `ExecuteOpcode`, `Push`, `Step`,
`Run`).  Machine integers are modelled as `Nat` with explicit `% 256`
(Go `byte`) and `% 65536` (Go `uint16`) at every arithmetic operation that
can wrap.  Go array indexing out of range is a runtime panic, modelled by
the `Outcome.panic` constructor (for `Option`-valued helpers, by `none`);
the only error value the source ever constructs is
`fmt.Errorf("Unknown opcode: 0x%04X", op)`, modelled by `Outcome.err`
carrying the word.  The busy-wait loop of opcode `Fx0A` never terminates
when no key is down (its condition depends only on `keypad`, which the
loop does not modify), modelled by `Outcome.diverge`.
-/

/-- Pointwise update of a `Nat`-indexed map (a Go array write `f[i] = v`). -/
def updf (f : Nat → Nat) (i v : Nat) : Nat → Nat :=
  fun j => if j = i then v else f j

/-- Pointwise update of a doubly indexed map (write to `d[r][c]`). -/
def updD (d : Nat → Nat → Nat) (r c v : Nat) : Nat → Nat → Nat :=
  fun r' c' => if r' = r then (if c' = c then v else d r' c') else d r' c'

/-- Go byte subtraction `a - b` (two's complement wraparound): for
`b < 256` this equals `(a - b) mod 256` computed over the integers. -/
def byteSub (a b : Nat) : Nat := (a + 256 - b % 256) % 256

/-- The machine state, field for field the Go struct `chip8`:
`memory [0x1000]byte`, `V [0x10]byte`, `I uint16`, `PC uint16`, `SP byte`,
`stack [0x10]uint16`, `display [64*2][32*2]byte` (128 rows by 64 columns),
`keypad [16]byte`, `delayTimer byte`, `soundTimer byte`.  Arrays are
modelled as total functions; indices outside an array's length are
checked at every access site and lead to `panic`/`none`. -/
structure Chip8 where
  memory : Nat → Nat
  V : Nat → Nat
  I : Nat
  PC : Nat
  SP : Nat
  stack : Nat → Nat
  display : Nat → Nat → Nat
  keypad : Nat → Nat
  delayTimer : Nat
  soundTimer : Nat

/-- Result of running `ExecuteOpcode` (or one `Step`): `ok op s` models the
Go return `(op, nil)` with post-state `s`; `err op s` models
`(op, fmt.Errorf("Unknown opcode: 0x%04X", op))`; `panic` models a Go
runtime index-out-of-range panic (the process aborts, no error value is
returned to the caller); `diverge` models a non-terminating loop. -/
inductive Outcome where
  | ok (op : Nat) (s : Chip8)
  | err (op : Nat) (s : Chip8)
  | panic
  | diverge

/-- `NewChip8()`: zero value of the struct except `PC = 0x200`. -/
def NewChip8 : Chip8 :=
  { memory := fun _ => 0, V := fun _ => 0, I := 0, PC := 0x200, SP := 0,
    stack := fun _ => 0, display := fun _ _ => 0, keypad := fun _ => 0,
    delayTimer := 0, soundTimer := 0 }

/-- Inner column loop of the `Dxyn` sprite draw, over the listed bit
indices `i` (the source iterates `i = 0..7`).  `V` is the register file as
it was when the draw started except that register 15 is the threaded
accumulator `vf` (the only register the draw writes); both display
indices re-read `c.V[y]` and `c.V[x]`, hence are recomputed for the test
and for the XOR write, exactly as in the source.  A row/column index
outside the `[128][64]` display array is a runtime panic (`none`). -/
def drawBits (pixel : Nat) (V : Nat → Nat) (x y j : Nat) :
    List Nat → (Nat → Nat → Nat) → Nat → Option ((Nat → Nat → Nat) × Nat)
  | [], d, vf => some (d, vf)
  | i :: is, d, vf =>
    if pixel &&& (0x80 >>> i) ≠ 0 then
      let r1 := ((if y = 15 then vf else V y) + j % 256) % 256
      let c1 := ((if x = 15 then vf else V x) + i % 256) % 256
      if r1 < 128 ∧ c1 < 64 then
        let vf1 := if d r1 c1 = 1 then 1 else vf
        let r2 := ((if y = 15 then vf1 else V y) + j % 256) % 256
        let c2 := ((if x = 15 then vf1 else V x) + i % 256) % 256
        if r2 < 128 ∧ c2 < 64 then
          drawBits pixel V x y j is (updD d r2 c2 (d r2 c2 ^^^ 1)) vf1
        else none
      else none
    else drawBits pixel V x y j is d vf

/-- Outer row loop of the `Dxyn` sprite draw, over the listed row indices
`j` (the source iterates `j = 0..n-1`).  Each row first reads the sprite
byte `memory[I+j]` (uint16 address arithmetic, array bound 4096). -/
def drawSprite (mem : Nat → Nat) (Ireg : Nat) (V : Nat → Nat) (x y : Nat) :
    List Nat → (Nat → Nat → Nat) → Nat → Option ((Nat → Nat → Nat) × Nat)
  | [], d, vf => some (d, vf)
  | j :: js, d, vf =>
    let a := (Ireg + j) % 65536
    if a < 4096 then
      match drawBits (mem a) V x y j (List.range 8) d vf with
      | some (d1, vf1) => drawSprite mem Ireg V x y js d1 vf1
      | none => none
    else none

/-- One pass of the `Fx0A` scan condition: true iff some listed key is 1. -/
def anyKey (keypad : Nat → Nat) : List Nat → Bool
  | [] => false
  | i :: is => (keypad i == 1) || anyKey keypad is

/-- One pass of the `Fx0A` scan body: every pressed key overwrites the
stored value, so the last pressed index in the list wins. -/
def scanKeys (keypad : Nat → Nat) : Nat → List Nat → Nat
  | v, [] => v
  | v, i :: is => scanKeys keypad (if keypad i = 1 then i else v) is

/-- `Fx55` loop: copy the listed registers into memory at `I+i`. -/
def storeRegs (V : Nat → Nat) (Ireg : Nat) :
    List Nat → (Nat → Nat) → Option (Nat → Nat)
  | [], mem => some mem
  | i :: is, mem =>
    let a := (Ireg + i) % 65536
    if a < 4096 then storeRegs V Ireg is (updf mem a (V i)) else none

/-- `Fx65` loop: copy memory at `I+i` into the listed registers. -/
def loadRegs (mem : Nat → Nat) (Ireg : Nat) :
    List Nat → (Nat → Nat) → Option (Nat → Nat)
  | [], V => some V
  | i :: is, V =>
    let a := (Ireg + i) % 65536
    if a < 4096 then loadRegs mem Ireg is (updf V i (mem a)) else none

/-- `ExecuteOpcode`, translated case for case from the source's nested
switch (a switch is a sequence of equality tests on the scrutinee).
`rnd` is the value drawn by `rand.Intn(256)` in the `Cxkk` case, made an
explicit parameter.  `Push` (used by `2nnn`) is inlined: `SP++` then
`stack[SP] = PC`, panicking when the incremented `SP` is outside the
16-entry stack. -/
def ExecuteOpcode (rnd : Nat) (s : Chip8) (op : Nat) : Outcome :=
  if op &&& 0xF000 = 0x0000 then
    if op = 0x00E0 then
      Outcome.ok op { s with display := fun _ _ => 0, PC := (s.PC + 2) % 65536 }
    else if op = 0x00EE then
      if s.SP < 16 then
        Outcome.ok op { s with PC := (s.stack s.SP + 2) % 65536,
                               SP := (s.SP + 255) % 256 }
      else Outcome.panic
    else Outcome.err op s
  else if op &&& 0xF000 = 0x1000 then
    Outcome.ok op { s with PC := op &&& 0x0FFF }
  else if op &&& 0xF000 = 0x2000 then
    if (s.SP + 1) % 256 < 16 then
      Outcome.ok op { s with SP := (s.SP + 1) % 256,
                             stack := updf s.stack ((s.SP + 1) % 256) s.PC,
                             PC := op &&& 0x0FFF }
    else Outcome.panic
  else if op &&& 0xF000 = 0x3000 then
    if op &&& 0xFF = s.V ((op &&& 0x0F00) >>> 8) then
      Outcome.ok op { s with PC := ((s.PC + 2) % 65536 + 2) % 65536 }
    else Outcome.ok op { s with PC := (s.PC + 2) % 65536 }
  else if op &&& 0xF000 = 0x4000 then
    if op &&& 0xFF ≠ s.V ((op &&& 0x0F00) >>> 8) then
      Outcome.ok op { s with PC := ((s.PC + 2) % 65536 + 2) % 65536 }
    else Outcome.ok op { s with PC := (s.PC + 2) % 65536 }
  else if op &&& 0xF000 = 0x5000 then
    if s.V ((op &&& 0x0F00) >>> 8) = s.V ((op &&& 0x00F0) >>> 4) then
      Outcome.ok op { s with PC := ((s.PC + 2) % 65536 + 2) % 65536 }
    else Outcome.ok op { s with PC := (s.PC + 2) % 65536 }
  else if op &&& 0xF000 = 0x6000 then
    Outcome.ok op { s with V := updf s.V ((op &&& 0x0F00) >>> 8) (op &&& 0xFF),
                           PC := (s.PC + 2) % 65536 }
  else if op &&& 0xF000 = 0x7000 then
    let x := (op &&& 0x0F00) >>> 8
    Outcome.ok op { s with V := updf s.V x ((s.V x + (op &&& 0xFF)) % 256),
                           PC := (s.PC + 2) % 65536 }
  else if op &&& 0xF000 = 0x8000 then
    let x := (op &&& 0x0F00) >>> 8
    let y := (op &&& 0x00F0) >>> 4
    if op &&& 0x000F = 0x0 then
      Outcome.ok op { s with V := updf s.V x (s.V y), PC := (s.PC + 2) % 65536 }
    else if op &&& 0x000F = 0x1 then
      Outcome.ok op { s with V := updf s.V x (s.V x ||| s.V y),
                             PC := (s.PC + 2) % 65536 }
    else if op &&& 0x000F = 0x2 then
      Outcome.ok op { s with V := updf s.V x (s.V x &&& s.V y),
                             PC := (s.PC + 2) % 65536 }
    else if op &&& 0x000F = 0x3 then
      Outcome.ok op { s with V := updf s.V x (s.V x ^^^ s.V y),
                             PC := (s.PC + 2) % 65536 }
    else if op &&& 0x000F = 0x4 then
      let sum := s.V x + s.V y
      let V1 := updf s.V x ((s.V x + s.V y) % 256)
      Outcome.ok op { s with V := updf V1 15 (if 0xFF < sum then 1 else 0),
                             PC := (s.PC + 2) % 65536 }
    else if op &&& 0x000F = 0x5 then
      let V1 := updf s.V 15 (if s.V y < s.V x then 1 else 0)
      Outcome.ok op { s with V := updf V1 x (byteSub (V1 x) (V1 y)),
                             PC := (s.PC + 2) % 65536 }
    else if op &&& 0x000F = 0x6 then
      let V1 := updf s.V 15 (if s.V x &&& 0x1 = 0x01 then 1 else 0)
      Outcome.ok op { s with V := updf V1 x (V1 x / 2),
                             PC := (s.PC + 2) % 65536 }
    else if op &&& 0x000F = 0x7 then
      let V1 := updf s.V 15 (if s.V x < s.V y then 1 else 0)
      Outcome.ok op { s with V := updf V1 x (byteSub (V1 y) (V1 x)),
                             PC := (s.PC + 2) % 65536 }
    else if op &&& 0x000F = 0xE then
      let V1 := updf s.V 15 (if s.V x &&& 0x80 = 0x80 then 1 else 0)
      Outcome.ok op { s with V := updf V1 x ((V1 x <<< 1) % 256),
                             PC := (s.PC + 2) % 65536 }
    else
      Outcome.ok op s
  else if op &&& 0xF000 = 0x9000 then
    if s.V ((op &&& 0x0F00) >>> 8) ≠ s.V ((op &&& 0x00F0) >>> 4) then
      Outcome.ok op { s with PC := ((s.PC + 2) % 65536 + 2) % 65536 }
    else Outcome.ok op { s with PC := (s.PC + 2) % 65536 }
  else if op &&& 0xF000 = 0xA000 then
    Outcome.ok op { s with I := op &&& 0x0FFF, PC := (s.PC + 2) % 65536 }
  else if op &&& 0xF000 = 0xB000 then
    Outcome.ok op { s with PC := ((op &&& 0x0FFF) + s.V 0) % 65536 }
  else if op &&& 0xF000 = 0xC000 then
    Outcome.ok op { s with V := updf s.V ((op &&& 0x0F00) >>> 8)
                                  ((rnd % 256) &&& (op &&& 0xFF)),
                           PC := (s.PC + 2) % 65536 }
  else if op &&& 0xF000 = 0xD000 then
    let x := (op &&& 0x0F00) >>> 8
    let y := (op &&& 0x00F0) >>> 4
    let n := op &&& 0x000F
    match drawSprite s.memory s.I s.V x y (List.range n) s.display 0 with
    | some (d1, vf1) =>
      Outcome.ok op { s with display := d1, V := updf s.V 15 vf1,
                             PC := (s.PC + 2) % 65536 }
    | none => Outcome.panic
  else if op &&& 0xF000 = 0xE000 then
    let x := (op &&& 0x0F00) >>> 8
    if op &&& 0x00FF = 0x9E then
      if s.V x < 16 then
        if s.keypad (s.V x) = 1 then
          Outcome.ok op { s with PC := ((s.PC + 2) % 65536 + 2) % 65536 }
        else Outcome.ok op { s with PC := (s.PC + 2) % 65536 }
      else Outcome.panic
    else if op &&& 0x00FF = 0xA1 then
      if s.V x < 16 then
        if s.keypad (s.V x) = 0 then
          Outcome.ok op { s with PC := ((s.PC + 2) % 65536 + 2) % 65536 }
        else Outcome.ok op { s with PC := (s.PC + 2) % 65536 }
      else Outcome.panic
    else Outcome.err op s
  else if op &&& 0xF000 = 0xF000 then
    let x := (op &&& 0x0F00) >>> 8
    if op &&& 0x00FF = 0x07 then
      Outcome.ok op { s with V := updf s.V x s.delayTimer,
                             PC := (s.PC + 2) % 65536 }
    else if op &&& 0x00FF = 0x0A then
      if anyKey s.keypad (List.range 16) then
        Outcome.ok op { s with V := updf s.V x
                                      (scanKeys s.keypad (s.V x) (List.range 16)),
                               PC := (s.PC + 2) % 65536 }
      else Outcome.diverge
    else if op &&& 0x00FF = 0x15 then
      Outcome.ok op { s with delayTimer := s.V x, PC := (s.PC + 2) % 65536 }
    else if op &&& 0x00FF = 0x18 then
      Outcome.ok op { s with soundTimer := s.V x, PC := (s.PC + 2) % 65536 }
    else if op &&& 0x00FF = 0x1E then
      Outcome.ok op { s with I := (s.I + s.V x) % 65536,
                             PC := (s.PC + 2) % 65536 }
    else if op &&& 0x00FF = 0x29 then
      Outcome.ok op { s with I := (s.I + s.V x * 0x05) % 65536,
                             PC := (s.PC + 2) % 65536 }
    else if op &&& 0x00FF = 0x33 then
      if s.I < 4096 then
        if (s.I + 1) % 65536 < 4096 then
          if (s.I + 2) % 65536 < 4096 then
            Outcome.ok op { s with
              memory := updf (updf (updf s.memory s.I (s.V x / 100))
                               ((s.I + 1) % 65536) ((s.V x / 10) % 10))
                          ((s.I + 2) % 65536) ((s.V x % 100) % 10),
              PC := (s.PC + 2) % 65536 }
          else Outcome.panic
        else Outcome.panic
      else Outcome.panic
    else if op &&& 0x00FF = 0x55 then
      match storeRegs s.V s.I (List.range (x + 1)) s.memory with
      | some m1 => Outcome.ok op { s with memory := m1, PC := (s.PC + 2) % 65536 }
      | none => Outcome.panic
    else if op &&& 0x00FF = 0x65 then
      match loadRegs s.memory s.I (List.range (x + 1)) s.V with
      | some V1 => Outcome.ok op { s with V := V1, PC := (s.PC + 2) % 65536 }
      | none => Outcome.panic
    else Outcome.err op s
  else Outcome.err op s

/-- `FetchInstruction`: big-endian 16-bit read of `memory[PC]` and
`memory[PC+1]` (uint16 address increment); `none` models the runtime
panic when an index is outside the 4096-byte array.  The source does not
advance `PC` here. -/
def FetchInstruction (s : Chip8) : Option Nat :=
  if s.PC < 4096 then
    if (s.PC + 1) % 65536 < 4096 then
      some ((s.memory s.PC) <<< 8 ||| s.memory ((s.PC + 1) % 65536))
    else none
  else none

/-- `Step`: fetch then execute.  This is also the entire per-iteration
state effect of `Run`, whose loop body is `Step` followed by
`time.Sleep`. -/
def Step (rnd : Nat) (s : Chip8) : Outcome :=
  match FetchInstruction s with
  | some op => ExecuteOpcode rnd s op
  | none => Outcome.panic

/-- Post-state of a successful execution, `none` otherwise. -/
def okState : Outcome → Option Chip8
  | Outcome.ok _ s => some s
  | _ => none

/-- Register `i` of the post-state of a successful execution. -/
def okV (o : Outcome) (i : Nat) : Option Nat := (okState o).map (fun s => s.V i)

/-- Stack pointer of the post-state of a successful execution. -/
def okSP (o : Outcome) : Option Nat := (okState o).map Chip8.SP

/-- Address register of the post-state of a successful execution. -/
def okI (o : Outcome) : Option Nat := (okState o).map Chip8.I

/-- Program counter of the post-state of a successful execution. -/
def okPC (o : Outcome) : Option Nat := (okState o).map Chip8.PC

/-- Delay timer of the post-state of a successful execution. -/
def okDelay (o : Outcome) : Option Nat := (okState o).map Chip8.delayTimer

/-- Sound timer of the post-state of a successful execution. -/
def okSound (o : Outcome) : Option Nat := (okState o).map Chip8.soundTimer

/-- Display cell `(r, c)` of the post-state of a successful execution. -/
def okDisp (o : Outcome) (r c : Nat) : Option Nat :=
  (okState o).map (fun s => s.display r c)

/-- Two consecutive executions of the same instruction word, the second
one only if the first succeeded. -/
def execTwice (rnd : Nat) (s : Chip8) (op : Nat) : Outcome :=
  match ExecuteOpcode rnd s op with
  | Outcome.ok _ s1 => ExecuteOpcode rnd s1 op
  | o => o

/-! Basic facts about the map-update helpers. -/

theorem updf_self (f : Nat → Nat) (i v : Nat) : updf f i v i = v := by
  simp [updf]

theorem updf_ne (f : Nat → Nat) (i v j : Nat) (h : j ≠ i) : updf f i v j = f j := by
  simp [updf, h]

/-! Concrete machine states used by the counterexamples and witnesses. -/

/-- Fresh machine whose program counter sits on the last memory byte. -/
def fetchEdgeState : Chip8 := { NewChip8 with PC := 4095 }

/-- Fresh machine with the address register just past the memory space. -/
def addrOOBState : Chip8 := { NewChip8 with I := 4096 }

/-- Fresh machine with a full call stack (SP = 15). -/
def fullStackState : Chip8 := { NewChip8 with SP := 15 }

/-! Claim C1. -/

/-- Claim C1, counterexample: with `PC = 0xFFF` the instruction fetch reads
`memory[0x1000]`, one byte past the 4096-byte space; the step does not fail
with a fatal AddressOutOfRange error value — no such error exists in the
code — it aborts with a Go runtime index-out-of-range panic. -/
theorem C1_cex : Step 0 fetchEdgeState = Outcome.panic ∧
    (∀ op s', Step 0 fetchEdgeState ≠ Outcome.err op s') := by
  refine ⟨rfl, ?_⟩
  intro op s' h
  exact absurd (rfl.trans h) (by intro h2; cases h2)

/-- Claim C1, amended: no memory access of the interpreter is checked
against an error path; a computed address outside `0x000`–`0xFFF` makes
the fetch (`PC` at or past the end), the BCD store `Fx33`, the register
dumps `Fx55`/`Fx65`, and the sprite read of `Dxyn` abort with a runtime
index-out-of-range panic instead of returning a fatal error value. -/
theorem C1_amended_out_of_range_panics (s : Chip8) (rnd : Nat) :
    (4095 ≤ s.PC → s.PC < 65536 → Step rnd s = Outcome.panic)
  ∧ (4096 ≤ s.I → s.I < 65536 →
      ExecuteOpcode rnd s 0xF033 = Outcome.panic ∧
      ExecuteOpcode rnd s 0xF055 = Outcome.panic ∧
      ExecuteOpcode rnd s 0xF065 = Outcome.panic ∧
      ExecuteOpcode rnd s 0xD001 = Outcome.panic) := by
  constructor
  · intro h1 h2
    unfold Step FetchInstruction
    rcases Nat.lt_or_ge s.PC 4096 with hlt | hge
    · have hpc : s.PC = 4095 := by omega
      simp [hpc]
    · simp [Nat.not_lt.mpr hge]
  · intro h1 h2
    have hIlt : ¬ s.I < 4096 := Nat.not_lt.mpr h1
    have hImod : s.I % 65536 = s.I := Nat.mod_eq_of_lt h2
    refine ⟨?_, ?_, ?_, ?_⟩
    · have ha : (0xF033 : Nat) &&& 0xF000 = 0xF000 := by decide
      have hb : (0xF033 : Nat) &&& 0x00FF = 0x33 := by decide
      unfold ExecuteOpcode
      simp only [ha, hb]
      norm_num [hIlt]
    · have ha : (0xF055 : Nat) &&& 0xF000 = 0xF000 := by decide
      have hb : (0xF055 : Nat) &&& 0x00FF = 0x55 := by decide
      have hc : ((0xF055 : Nat) &&& 0x0F00) >>> 8 = 0 := by decide
      unfold ExecuteOpcode
      simp only [ha, hb, hc]
      norm_num [storeRegs, List.range_succ, hImod, hIlt]
    · have ha : (0xF065 : Nat) &&& 0xF000 = 0xF000 := by decide
      have hb : (0xF065 : Nat) &&& 0x00FF = 0x65 := by decide
      have hc : ((0xF065 : Nat) &&& 0x0F00) >>> 8 = 0 := by decide
      unfold ExecuteOpcode
      simp only [ha, hb, hc]
      norm_num [loadRegs, List.range_succ, hImod, hIlt]
    · have ha : (0xD001 : Nat) &&& 0xF000 = 0xD000 := by decide
      have hb : (0xD001 : Nat) &&& 0x000F = 1 := by decide
      unfold ExecuteOpcode
      simp only [ha, hb]
      norm_num [drawSprite, List.range_succ, hImod, hIlt]

/-- Claim C1, witness for the amended theorem at concrete states. -/
theorem C1_witness :
    Step 0 fetchEdgeState = Outcome.panic ∧
    ExecuteOpcode 0 addrOOBState 0xF033 = Outcome.panic ∧
    ExecuteOpcode 0 addrOOBState 0xF055 = Outcome.panic ∧
    ExecuteOpcode 0 addrOOBState 0xF065 = Outcome.panic ∧
    ExecuteOpcode 0 addrOOBState 0xD001 = Outcome.panic := by
  refine ⟨(C1_amended_out_of_range_panics fetchEdgeState 0).1 (by decide) (by decide), ?_⟩
  have h := (C1_amended_out_of_range_panics addrOOBState 0).2 (by decide) (by decide)
  exact h

/-! Claim C2. -/

/-- Claim C2, counterexample: the word `0x8008` matches no documented
pattern of family `0x8` (low nibble `0x8`), yet `ExecuteOpcode` succeeds
with the machine state unchanged (not even `PC` advances) instead of
returning a fatal decode error. -/
theorem C2_cex : ExecuteOpcode 0 NewChip8 0x8008 = Outcome.ok 0x8008 NewChip8 ∧
    (∀ op s', ExecuteOpcode 0 NewChip8 0x8008 ≠ Outcome.err op s') := by
  refine ⟨rfl, ?_⟩
  intro op s' h
  cases h

/-- Claim C2, amended: unmatched sub-codes of families `0x0`, `0xE` and
`0xF` do return the fatal decode error carrying the instruction word, but
family `0x8` has no default case: a family-`0x8` word with low nibble
`0x8`–`0xD` or `0xF` is silently accepted as a state-preserving no-op
(`PC` not advanced) and execution does not halt. -/
theorem C2_amended_decode_errors (rnd : Nat) (s : Chip8) (op : Nat) :
    (op &&& 0xF000 = 0x8000 →
      op &&& 0x000F ≠ 0x0 → op &&& 0x000F ≠ 0x1 → op &&& 0x000F ≠ 0x2 →
      op &&& 0x000F ≠ 0x3 → op &&& 0x000F ≠ 0x4 → op &&& 0x000F ≠ 0x5 →
      op &&& 0x000F ≠ 0x6 → op &&& 0x000F ≠ 0x7 → op &&& 0x000F ≠ 0xE →
      ExecuteOpcode rnd s op = Outcome.ok op s)
  ∧ (op &&& 0xF000 = 0x0000 → op ≠ 0x00E0 → op ≠ 0x00EE →
      ExecuteOpcode rnd s op = Outcome.err op s)
  ∧ (op &&& 0xF000 = 0xE000 → op &&& 0x00FF ≠ 0x9E → op &&& 0x00FF ≠ 0xA1 →
      ExecuteOpcode rnd s op = Outcome.err op s)
  ∧ (op &&& 0xF000 = 0xF000 →
      op &&& 0x00FF ≠ 0x07 → op &&& 0x00FF ≠ 0x0A → op &&& 0x00FF ≠ 0x15 →
      op &&& 0x00FF ≠ 0x18 → op &&& 0x00FF ≠ 0x1E → op &&& 0x00FF ≠ 0x29 →
      op &&& 0x00FF ≠ 0x33 → op &&& 0x00FF ≠ 0x55 → op &&& 0x00FF ≠ 0x65 →
      ExecuteOpcode rnd s op = Outcome.err op s) := by
  refine ⟨?_, ?_, ?_, ?_⟩
  · intro h8 h0 h1 h2 h3 h4 h5 h6 h7 hE
    unfold ExecuteOpcode
    simp only [h8]
    norm_num [h0, h1, h2, h3, h4, h5, h6, h7, hE]
  · intro hfam hE0 hEE
    unfold ExecuteOpcode
    simp only [hfam]
    norm_num [hE0, hEE]
  · intro hfam h9E hA1
    unfold ExecuteOpcode
    simp only [hfam]
    norm_num [h9E, hA1]
  · intro hfam h07 h0A h15 h18 h1E h29 h33 h55 h65
    unfold ExecuteOpcode
    simp only [hfam]
    norm_num [h07, h0A, h15, h18, h1E, h29, h33, h55, h65]

/-- Claim C2, witness for the amended theorem at concrete words. -/
theorem C2_witness :
    ExecuteOpcode 0 NewChip8 0x800F = Outcome.ok 0x800F NewChip8 ∧
    ExecuteOpcode 0 NewChip8 0x0123 = Outcome.err 0x0123 NewChip8 ∧
    ExecuteOpcode 0 NewChip8 0xE003 = Outcome.err 0xE003 NewChip8 ∧
    ExecuteOpcode 0 NewChip8 0xF0FF = Outcome.err 0xF0FF NewChip8 := by
  refine ⟨?_, ?_, ?_, ?_⟩
  · exact (C2_amended_decode_errors 0 NewChip8 0x800F).1 (by decide) (by decide)
      (by decide) (by decide) (by decide) (by decide) (by decide) (by decide)
      (by decide) (by decide)
  · exact (C2_amended_decode_errors 0 NewChip8 0x0123).2.1 (by decide) (by decide)
      (by decide)
  · exact (C2_amended_decode_errors 0 NewChip8 0xE003).2.2.1 (by decide) (by decide)
      (by decide)
  · exact (C2_amended_decode_errors 0 NewChip8 0xF0FF).2.2.2 (by decide) (by decide)
      (by decide) (by decide) (by decide) (by decide) (by decide) (by decide)
      (by decide) (by decide)

/-! Claim C3. -/

/-- Claim C3, counterexample: a `00EE` return on a fresh machine (empty
call stack, `SP = 0`) does not fail with a StackUnderflow; it succeeds and
the byte decrement wraps `SP` to 255, far outside 0..15. -/
theorem C3_cex : okSP (ExecuteOpcode 0 NewChip8 0x00EE) = some 255 := by decide

/-- Claim C3, amended: the stack pointer is not checked.  A `00EE` return
with `SP = 0` succeeds and wraps `SP` to 255 (no StackUnderflow error),
and a `2nnn` call with `SP = 15` aborts with a runtime
index-out-of-range panic on `stack[16]` (no StackOverflow error), so `SP`
does not stay within 0..15. -/
theorem C3_amended_sp_unchecked (rnd : Nat) (s : Chip8) :
    (s.SP = 0 → ∃ s', ExecuteOpcode rnd s 0x00EE = Outcome.ok 0x00EE s' ∧
      s'.SP = 255)
  ∧ (∀ op, op &&& 0xF000 = 0x2000 → s.SP = 15 →
      ExecuteOpcode rnd s op = Outcome.panic) := by
  constructor
  · intro hSP
    have ha : ((0x00EE : Nat) &&& 0xF000) = 0 := by decide
    refine ⟨{ s with PC := (s.stack s.SP + 2) % 65536,
                     SP := (s.SP + 255) % 256 }, ?_, ?_⟩
    · unfold ExecuteOpcode
      simp only [ha]
      norm_num [hSP]
    · simp [hSP]
  · intro op h2 hSP
    unfold ExecuteOpcode
    simp only [h2]
    norm_num [hSP]

/-- Claim C3, witness for the amended theorem at concrete states. -/
theorem C3_witness :
    (∃ s', ExecuteOpcode 0 NewChip8 0x00EE = Outcome.ok 0x00EE s' ∧ s'.SP = 255) ∧
    ExecuteOpcode 0 fullStackState 0x2ABC = Outcome.panic := by
  refine ⟨(C3_amended_sp_unchecked 0 NewChip8).1 rfl, ?_⟩
  exact (C3_amended_sp_unchecked 0 fullStackState).2 0x2ABC (by decide) rfl

/-! Claim C4. -/

/-- Fresh machine with a one-row solid sprite at `I = 0x300` and
`V[0] = 60`, so that drawing at column base 60 crosses the right edge. -/
def spriteEdgeState : Chip8 :=
  { NewChip8 with I := 0x300, V := updf NewChip8.V 0 60,
                  memory := updf NewChip8.memory 0x300 0xFF }

/-- Claim C4 (code bug): drawing the 8-pixel row `0xFF` at `(V[0], V[1]) =
(60, 0)` must, per the claim (and per the source's own comment, which
promises wrap-around), XOR the cell at column `(60+4) mod 64 = 0`; the
code applies no modulo by the grid size and instead indexes
`display[0][64]` in the `[128][64]` array, aborting with a runtime
index-out-of-range panic. -/
theorem C4_eval : ExecuteOpcode 0 spriteEdgeState 0xD011 = Outcome.panic := rfl

/-! Claim C5. -/

/-- Fresh machine with `V[15] = 1` and `V[0] = 1`. -/
def carryState : Chip8 := { NewChip8 with V := updf (updf NewChip8.V 15 1) 0 1 }

/-- Claim C5, counterexample: `8F04` with `V[15] = 1`, `V[0] = 1` must per
the claim leave `V[x] = V[15] = (1+1) mod 256 = 2`; the code stores the
carry flag into `V[15]` after the sum, so `V[15]` ends as 0. -/
theorem C5_cex : okV (ExecuteOpcode 0 carryState 0x8F04) 15 ≠ some ((1 + 1) % 256) := by
  decide

/-- Claim C5, amended: `8xy4` sets `VF` to 1 iff the pre-wrap sum
`V[x]+V[y]` exceeds 255 (else 0) for every `x`, `y`, and leaves
`V[x] = (V[x]+V[y]) mod 256` for every `x ≠ 15`; when `x = 15` the flag
write happens after the sum is stored and overwrites it, so `V[15]` ends
as the carry flag, not the sum. -/
theorem C5_amended_add_carry (rnd : Nat) (s : Chip8) (op : Nat)
    (h8 : op &&& 0xF000 = 0x8000) (h4 : op &&& 0x000F = 0x4) :
    ∃ s', ExecuteOpcode rnd s op = Outcome.ok op s' ∧
      s'.V 15 = (if 255 < s.V ((op &&& 0x0F00) >>> 8) + s.V ((op &&& 0x00F0) >>> 4)
                 then 1 else 0) ∧
      ((op &&& 0x0F00) >>> 8 ≠ 15 →
        s'.V ((op &&& 0x0F00) >>> 8) =
          (s.V ((op &&& 0x0F00) >>> 8) + s.V ((op &&& 0x00F0) >>> 4)) % 256) := by
  refine ⟨{ s with
      V := updf (updf s.V ((op &&& 0x0F00) >>> 8)
             ((s.V ((op &&& 0x0F00) >>> 8) + s.V ((op &&& 0x00F0) >>> 4)) % 256)) 15
             (if 0xFF < s.V ((op &&& 0x0F00) >>> 8) + s.V ((op &&& 0x00F0) >>> 4)
              then 1 else 0),
      PC := (s.PC + 2) % 65536 }, ?_, ?_, ?_⟩
  · unfold ExecuteOpcode
    simp only [h8, h4]
    norm_num
  · simp [updf]
  · intro hx
    simp [updf, hx]

/-- Fresh machine with `V[2] = 200` and `V[3] = 100`. -/
def carry2State : Chip8 :=
  { NewChip8 with V := updf (updf NewChip8.V 2 200) 3 100 }

/-- Claim C5, witness for the amended theorem at `8234`, `V[2] = 200`,
`V[3] = 100`. -/
theorem C5_witness :
    ∃ s', ExecuteOpcode 0 carry2State 0x8234 = Outcome.ok 0x8234 s' ∧
      s'.V 15 = (if 255 < carry2State.V ((0x8234 &&& 0x0F00) >>> 8) +
                   carry2State.V ((0x8234 &&& 0x00F0) >>> 4) then 1 else 0) ∧
      ((0x8234 &&& 0x0F00) >>> 8 ≠ 15 →
        s'.V ((0x8234 &&& 0x0F00) >>> 8) =
          (carry2State.V ((0x8234 &&& 0x0F00) >>> 8) +
           carry2State.V ((0x8234 &&& 0x00F0) >>> 4)) % 256) :=
  C5_amended_add_carry 0 carry2State 0x8234 (by decide) (by decide)

/-! Claim C6. -/

/-- Claim C6, counterexample: on a machine with `SP = 15` the `2nnn` call
itself aborts with a runtime index panic on `stack[16]`, so the call/return
round trip does not hold for every machine state. -/
theorem C6_cex : ExecuteOpcode 0 fullStackState 0x2ABC = Outcome.panic := rfl

/-- Claim C6, amended: provided `SP < 15` before the call, executing
`2nnn` and then `00EE` leaves `PC` at exactly 2 bytes past the call site
(modulo 2^16) and restores `SP`; with `SP = 15` the call panics instead. -/
theorem C6_amended_call_ret_roundtrip (rnd : Nat) (s : Chip8) (op : Nat)
    (h2 : op &&& 0xF000 = 0x2000) (hsp : s.SP < 15) :
    ∃ s1 s2, ExecuteOpcode rnd s op = Outcome.ok op s1 ∧
      ExecuteOpcode rnd s1 0x00EE = Outcome.ok 0x00EE s2 ∧
      s2.PC = (s.PC + 2) % 65536 ∧ s2.SP = s.SP := by
  have hmod : (s.SP + 1) % 256 = s.SP + 1 := Nat.mod_eq_of_lt (by omega)
  have hlt : (s.SP + 1) % 256 < 16 := by rw [hmod]; omega
  have ha : ((0x00EE : Nat) &&& 0xF000) = 0 := by decide
  refine ⟨{ s with SP := (s.SP + 1) % 256,
                   stack := updf s.stack ((s.SP + 1) % 256) s.PC,
                   PC := op &&& 0x0FFF },
          { s with SP := ((s.SP + 1) % 256 + 255) % 256,
                   stack := updf s.stack ((s.SP + 1) % 256) s.PC,
                   PC := (updf s.stack ((s.SP + 1) % 256) s.PC ((s.SP + 1) % 256) + 2)
                           % 65536 },
          ?_, ?_, ?_, ?_⟩
  · unfold ExecuteOpcode
    simp only [h2]
    norm_num [hlt]
  · unfold ExecuteOpcode
    simp only [ha]
    norm_num [hlt]
  · simp [updf]
  · simp
    omega

/-- Claim C6, witness: the round trip on a fresh machine with `op = 0x2ABC`. -/
theorem C6_witness :
    ∃ s1 s2, ExecuteOpcode 0 NewChip8 0x2ABC = Outcome.ok 0x2ABC s1 ∧
      ExecuteOpcode 0 s1 0x00EE = Outcome.ok 0x00EE s2 ∧
      s2.PC = (NewChip8.PC + 2) % 65536 ∧ s2.SP = NewChip8.SP :=
  C6_amended_call_ret_roundtrip 0 NewChip8 0x2ABC (by decide) (by decide)

/-! Claim C8. -/

/-- Fresh machine with `I = 10` and `V[1] = 1`. -/
def fontState : Chip8 := { NewChip8 with I := 10, V := updf NewChip8.V 1 1 }

/-- Claim C8 (code bug): `F129` with `I = 10` and `V[1] = 1` must per the
claim (and per the source's own comment, which says the value of `I` *is
set to* the glyph location) leave `I = V[1] * 5 = 5`; the code instead
adds, leaving `I = 10 + 5 = 15`. -/
theorem C8_eval : okI (ExecuteOpcode 0 fontState 0xF129) = some 15 ∧
    okI (ExecuteOpcode 0 fontState 0xF129) ≠ some (1 * 5) := by decide

/-! Claim C9.  The repository has no tick() and never decrements a timer:
the per-family lemmas below check every instruction the dispatch can
execute. -/

/-- Timers after one successful `ExecuteOpcode`: either untouched or
assigned from register `x` of the instruction (`Fx15`/`Fx18`). -/
def TimersQuiet (s s' : Chip8) (op : Nat) : Prop :=
  (s'.delayTimer = s.delayTimer ∨ s'.delayTimer = s.V ((op &&& 0x0F00) >>> 8))
  ∧ (s'.soundTimer = s.soundTimer ∨ s'.soundTimer = s.V ((op &&& 0x0F00) >>> 8))

theorem timersQuiet_fam0 (rnd : Nat) (s : Chip8) (op op' : Nat) (s' : Chip8)
    (hfam : op &&& 0xF000 = 0x0000)
    (h : ExecuteOpcode rnd s op = Outcome.ok op' s') : TimersQuiet s s' op := by
  unfold ExecuteOpcode at h
  simp only [hfam] at h
  norm_num at h
  repeat' split at h
  all_goals try (obtain ⟨rfl, rfl⟩ := h)
  all_goals try cases h
  all_goals exact ⟨Or.inl rfl, Or.inl rfl⟩

theorem timersQuiet_fam1 (rnd : Nat) (s : Chip8) (op op' : Nat) (s' : Chip8)
    (hfam : op &&& 0xF000 = 0x1000)
    (h : ExecuteOpcode rnd s op = Outcome.ok op' s') : TimersQuiet s s' op := by
  unfold ExecuteOpcode at h
  simp only [hfam] at h
  norm_num at h
  obtain ⟨rfl, rfl⟩ := h
  exact ⟨Or.inl rfl, Or.inl rfl⟩

theorem timersQuiet_fam2 (rnd : Nat) (s : Chip8) (op op' : Nat) (s' : Chip8)
    (hfam : op &&& 0xF000 = 0x2000)
    (h : ExecuteOpcode rnd s op = Outcome.ok op' s') : TimersQuiet s s' op := by
  unfold ExecuteOpcode at h
  simp only [hfam] at h
  norm_num at h
  repeat' split at h
  all_goals try (obtain ⟨rfl, rfl⟩ := h)
  all_goals try cases h
  all_goals exact ⟨Or.inl rfl, Or.inl rfl⟩

theorem timersQuiet_fam3 (rnd : Nat) (s : Chip8) (op op' : Nat) (s' : Chip8)
    (hfam : op &&& 0xF000 = 0x3000)
    (h : ExecuteOpcode rnd s op = Outcome.ok op' s') : TimersQuiet s s' op := by
  unfold ExecuteOpcode at h
  simp only [hfam] at h
  norm_num at h
  repeat' split at h
  all_goals try (obtain ⟨rfl, rfl⟩ := h)
  all_goals try cases h
  all_goals exact ⟨Or.inl rfl, Or.inl rfl⟩

theorem timersQuiet_fam4 (rnd : Nat) (s : Chip8) (op op' : Nat) (s' : Chip8)
    (hfam : op &&& 0xF000 = 0x4000)
    (h : ExecuteOpcode rnd s op = Outcome.ok op' s') : TimersQuiet s s' op := by
  unfold ExecuteOpcode at h
  simp only [hfam] at h
  norm_num at h
  repeat' split at h
  all_goals try (obtain ⟨rfl, rfl⟩ := h)
  all_goals try cases h
  all_goals exact ⟨Or.inl rfl, Or.inl rfl⟩

theorem timersQuiet_fam5 (rnd : Nat) (s : Chip8) (op op' : Nat) (s' : Chip8)
    (hfam : op &&& 0xF000 = 0x5000)
    (h : ExecuteOpcode rnd s op = Outcome.ok op' s') : TimersQuiet s s' op := by
  unfold ExecuteOpcode at h
  simp only [hfam] at h
  norm_num at h
  repeat' split at h
  all_goals try (obtain ⟨rfl, rfl⟩ := h)
  all_goals try cases h
  all_goals exact ⟨Or.inl rfl, Or.inl rfl⟩

theorem timersQuiet_fam6 (rnd : Nat) (s : Chip8) (op op' : Nat) (s' : Chip8)
    (hfam : op &&& 0xF000 = 0x6000)
    (h : ExecuteOpcode rnd s op = Outcome.ok op' s') : TimersQuiet s s' op := by
  unfold ExecuteOpcode at h
  simp only [hfam] at h
  norm_num at h
  obtain ⟨rfl, rfl⟩ := h
  exact ⟨Or.inl rfl, Or.inl rfl⟩

theorem timersQuiet_fam7 (rnd : Nat) (s : Chip8) (op op' : Nat) (s' : Chip8)
    (hfam : op &&& 0xF000 = 0x7000)
    (h : ExecuteOpcode rnd s op = Outcome.ok op' s') : TimersQuiet s s' op := by
  unfold ExecuteOpcode at h
  simp only [hfam] at h
  norm_num at h
  obtain ⟨rfl, rfl⟩ := h
  exact ⟨Or.inl rfl, Or.inl rfl⟩

theorem timersQuiet_fam8 (rnd : Nat) (s : Chip8) (op op' : Nat) (s' : Chip8)
    (hfam : op &&& 0xF000 = 0x8000)
    (h : ExecuteOpcode rnd s op = Outcome.ok op' s') : TimersQuiet s s' op := by
  unfold ExecuteOpcode at h
  simp only [hfam] at h
  norm_num at h
  by_cases e0 : op &&& 0x000F = 0x0
  · rw [if_pos e0] at h; cases h; exact ⟨Or.inl rfl, Or.inl rfl⟩
  rw [if_neg e0] at h
  by_cases e1 : op &&& 0x000F = 0x1
  · rw [if_pos e1] at h; cases h; exact ⟨Or.inl rfl, Or.inl rfl⟩
  rw [if_neg e1] at h
  by_cases e2 : op &&& 0x000F = 0x2
  · rw [if_pos e2] at h; cases h; exact ⟨Or.inl rfl, Or.inl rfl⟩
  rw [if_neg e2] at h
  by_cases e3 : op &&& 0x000F = 0x3
  · rw [if_pos e3] at h; cases h; exact ⟨Or.inl rfl, Or.inl rfl⟩
  rw [if_neg e3] at h
  by_cases e4 : op &&& 0x000F = 0x4
  · rw [if_pos e4] at h; cases h; exact ⟨Or.inl rfl, Or.inl rfl⟩
  rw [if_neg e4] at h
  by_cases e5 : op &&& 0x000F = 0x5
  · rw [if_pos e5] at h; cases h; exact ⟨Or.inl rfl, Or.inl rfl⟩
  rw [if_neg e5] at h
  by_cases e6 : op &&& 0x000F = 0x6
  · rw [if_pos e6] at h; cases h; exact ⟨Or.inl rfl, Or.inl rfl⟩
  rw [if_neg e6] at h
  by_cases e7 : op &&& 0x000F = 0x7
  · rw [if_pos e7] at h; cases h; exact ⟨Or.inl rfl, Or.inl rfl⟩
  rw [if_neg e7] at h
  by_cases eE : op &&& 0x000F = 0xE
  · rw [if_pos eE] at h; cases h; exact ⟨Or.inl rfl, Or.inl rfl⟩
  rw [if_neg eE] at h
  cases h
  exact ⟨Or.inl rfl, Or.inl rfl⟩

theorem timersQuiet_fam9 (rnd : Nat) (s : Chip8) (op op' : Nat) (s' : Chip8)
    (hfam : op &&& 0xF000 = 0x9000)
    (h : ExecuteOpcode rnd s op = Outcome.ok op' s') : TimersQuiet s s' op := by
  unfold ExecuteOpcode at h
  simp only [hfam] at h
  norm_num at h
  repeat' split at h
  all_goals try (obtain ⟨rfl, rfl⟩ := h)
  all_goals try cases h
  all_goals exact ⟨Or.inl rfl, Or.inl rfl⟩

theorem timersQuiet_famA (rnd : Nat) (s : Chip8) (op op' : Nat) (s' : Chip8)
    (hfam : op &&& 0xF000 = 0xA000)
    (h : ExecuteOpcode rnd s op = Outcome.ok op' s') : TimersQuiet s s' op := by
  unfold ExecuteOpcode at h
  simp only [hfam] at h
  norm_num at h
  obtain ⟨rfl, rfl⟩ := h
  exact ⟨Or.inl rfl, Or.inl rfl⟩

theorem timersQuiet_famB (rnd : Nat) (s : Chip8) (op op' : Nat) (s' : Chip8)
    (hfam : op &&& 0xF000 = 0xB000)
    (h : ExecuteOpcode rnd s op = Outcome.ok op' s') : TimersQuiet s s' op := by
  unfold ExecuteOpcode at h
  simp only [hfam] at h
  norm_num at h
  obtain ⟨rfl, rfl⟩ := h
  exact ⟨Or.inl rfl, Or.inl rfl⟩

theorem timersQuiet_famC (rnd : Nat) (s : Chip8) (op op' : Nat) (s' : Chip8)
    (hfam : op &&& 0xF000 = 0xC000)
    (h : ExecuteOpcode rnd s op = Outcome.ok op' s') : TimersQuiet s s' op := by
  unfold ExecuteOpcode at h
  simp only [hfam] at h
  norm_num at h
  obtain ⟨rfl, rfl⟩ := h
  exact ⟨Or.inl rfl, Or.inl rfl⟩

theorem timersQuiet_famD (rnd : Nat) (s : Chip8) (op op' : Nat) (s' : Chip8)
    (hfam : op &&& 0xF000 = 0xD000)
    (h : ExecuteOpcode rnd s op = Outcome.ok op' s') : TimersQuiet s s' op := by
  unfold ExecuteOpcode at h
  simp only [hfam] at h
  norm_num at h
  repeat' split at h
  all_goals try (obtain ⟨rfl, rfl⟩ := h)
  all_goals try cases h
  all_goals exact ⟨Or.inl rfl, Or.inl rfl⟩

theorem timersQuiet_famE (rnd : Nat) (s : Chip8) (op op' : Nat) (s' : Chip8)
    (hfam : op &&& 0xF000 = 0xE000)
    (h : ExecuteOpcode rnd s op = Outcome.ok op' s') : TimersQuiet s s' op := by
  unfold ExecuteOpcode at h
  simp only [hfam] at h
  norm_num at h
  repeat' split at h
  all_goals try (obtain ⟨rfl, rfl⟩ := h)
  all_goals try cases h
  all_goals exact ⟨Or.inl rfl, Or.inl rfl⟩

theorem timersQuiet_famF (rnd : Nat) (s : Chip8) (op op' : Nat) (s' : Chip8)
    (hfam : op &&& 0xF000 = 0xF000)
    (h : ExecuteOpcode rnd s op = Outcome.ok op' s') : TimersQuiet s s' op := by
  unfold ExecuteOpcode at h
  simp only [hfam] at h
  norm_num at h
  by_cases e07 : op &&& 0x00FF = 0x07
  · rw [if_pos e07] at h; cases h; exact ⟨Or.inl rfl, Or.inl rfl⟩
  rw [if_neg e07] at h
  by_cases e0A : op &&& 0x00FF = 0x0A
  · rw [if_pos e0A] at h
    split at h
    · cases h; exact ⟨Or.inl rfl, Or.inl rfl⟩
    · cases h
  rw [if_neg e0A] at h
  by_cases e15 : op &&& 0x00FF = 0x15
  · rw [if_pos e15] at h; cases h; exact ⟨Or.inr rfl, Or.inl rfl⟩
  rw [if_neg e15] at h
  by_cases e18 : op &&& 0x00FF = 0x18
  · rw [if_pos e18] at h; cases h; exact ⟨Or.inl rfl, Or.inr rfl⟩
  rw [if_neg e18] at h
  by_cases e1E : op &&& 0x00FF = 0x1E
  · rw [if_pos e1E] at h; cases h; exact ⟨Or.inl rfl, Or.inl rfl⟩
  rw [if_neg e1E] at h
  by_cases e29 : op &&& 0x00FF = 0x29
  · rw [if_pos e29] at h; cases h; exact ⟨Or.inl rfl, Or.inl rfl⟩
  rw [if_neg e29] at h
  by_cases e33 : op &&& 0x00FF = 0x33
  · rw [if_pos e33] at h
    repeat' split at h
    all_goals try cases h
    all_goals exact ⟨Or.inl rfl, Or.inl rfl⟩
  rw [if_neg e33] at h
  by_cases e55 : op &&& 0x00FF = 0x55
  · rw [if_pos e55] at h
    split at h
    · cases h; exact ⟨Or.inl rfl, Or.inl rfl⟩
    · cases h
  rw [if_neg e55] at h
  by_cases e65 : op &&& 0x00FF = 0x65
  · rw [if_pos e65] at h
    split at h
    · cases h; exact ⟨Or.inl rfl, Or.inl rfl⟩
    · cases h
  rw [if_neg e65] at h
  cases h

/-- Claim C9, amended: no `tick()` exists in the code; the loop body of
`Run` is `Step` (fetch + execute) followed by a sleep, and no instruction
ever decrements a timer.  A successful execution leaves `delayTimer` and
`soundTimer` unchanged unless the instruction explicitly assigns them from
a register (`Fx15`/`Fx18`). -/
theorem C9_amended_no_tick (rnd : Nat) (s : Chip8) :
    (∀ op op' s', ExecuteOpcode rnd s op = Outcome.ok op' s' → TimersQuiet s s' op)
  ∧ (∀ op' s', Step rnd s = Outcome.ok op' s' →
      ((s'.delayTimer = s.delayTimer ∨ ∃ x, s'.delayTimer = s.V x)
       ∧ (s'.soundTimer = s.soundTimer ∨ ∃ x, s'.soundTimer = s.V x))) := by
  have main : ∀ op op' s', ExecuteOpcode rnd s op = Outcome.ok op' s' →
      TimersQuiet s s' op := by
    intro op op' s' h
    by_cases h0 : op &&& 0xF000 = 0x0000
    · exact timersQuiet_fam0 rnd s op op' s' h0 h
    by_cases h1 : op &&& 0xF000 = 0x1000
    · exact timersQuiet_fam1 rnd s op op' s' h1 h
    by_cases h2 : op &&& 0xF000 = 0x2000
    · exact timersQuiet_fam2 rnd s op op' s' h2 h
    by_cases h3 : op &&& 0xF000 = 0x3000
    · exact timersQuiet_fam3 rnd s op op' s' h3 h
    by_cases h4 : op &&& 0xF000 = 0x4000
    · exact timersQuiet_fam4 rnd s op op' s' h4 h
    by_cases h5 : op &&& 0xF000 = 0x5000
    · exact timersQuiet_fam5 rnd s op op' s' h5 h
    by_cases h6 : op &&& 0xF000 = 0x6000
    · exact timersQuiet_fam6 rnd s op op' s' h6 h
    by_cases h7 : op &&& 0xF000 = 0x7000
    · exact timersQuiet_fam7 rnd s op op' s' h7 h
    by_cases h8 : op &&& 0xF000 = 0x8000
    · exact timersQuiet_fam8 rnd s op op' s' h8 h
    by_cases h9 : op &&& 0xF000 = 0x9000
    · exact timersQuiet_fam9 rnd s op op' s' h9 h
    by_cases hA : op &&& 0xF000 = 0xA000
    · exact timersQuiet_famA rnd s op op' s' hA h
    by_cases hB : op &&& 0xF000 = 0xB000
    · exact timersQuiet_famB rnd s op op' s' hB h
    by_cases hC : op &&& 0xF000 = 0xC000
    · exact timersQuiet_famC rnd s op op' s' hC h
    by_cases hD : op &&& 0xF000 = 0xD000
    · exact timersQuiet_famD rnd s op op' s' hD h
    by_cases hE : op &&& 0xF000 = 0xE000
    · exact timersQuiet_famE rnd s op op' s' hE h
    by_cases hF : op &&& 0xF000 = 0xF000
    · exact timersQuiet_famF rnd s op op' s' hF h
    unfold ExecuteOpcode at h
    rw [if_neg h0, if_neg h1, if_neg h2, if_neg h3, if_neg h4, if_neg h5,
        if_neg h6, if_neg h7, if_neg h8, if_neg h9, if_neg hA, if_neg hB,
        if_neg hC, if_neg hD, if_neg hE, if_neg hF] at h
    cases h
  refine ⟨main, ?_⟩
  intro op' s' h
  unfold Step at h
  split at h
  · rcases main _ _ _ h with ⟨hd, hs⟩
    exact ⟨hd.imp id (fun hv => ⟨_, hv⟩), hs.imp id (fun hv => ⟨_, hv⟩)⟩
  · cases h

/-- Fresh machine with `delayTimer = 5`, `soundTimer = 7` and the program
`00E0` at `0x200`. -/
def timersState : Chip8 :=
  { NewChip8 with delayTimer := 5, soundTimer := 7,
                  memory := updf (updf NewChip8.memory 0x200 0x00) 0x201 0xE0 }

/-- Claim C9, counterexample: one iteration of the driver loop (a `Step`,
the entire state effect of `Run`'s body) leaves `delay = 5` and
`sound = 7`; nothing decrements them to 4 and 6 — no tick() exists. -/
theorem C9_cex :
    okDelay (Step 0 timersState) = some 5 ∧ okSound (Step 0 timersState) = some 7 ∧
    okDelay (Step 0 timersState) ≠ some (5 - 1) ∧
    okSound (Step 0 timersState) ≠ some (7 - 1) := by decide

/-- Claim C9, witness for the amended theorem at a concrete state. -/
theorem C9_witness :
    ∃ s', Step 0 timersState = Outcome.ok 0x00E0 s' ∧
      ((s'.delayTimer = timersState.delayTimer ∨ ∃ x, s'.delayTimer = timersState.V x)
       ∧ (s'.soundTimer = timersState.soundTimer ∨ ∃ x, s'.soundTimer = timersState.V x)) :=
  ⟨_, rfl, (C9_amended_no_tick 0 timersState).2 0x00E0 _ rfl⟩

/-! Claim C10.  Facts about the `Fx0A` key scan. -/

theorem anyKey_iff (kp : Nat → Nat) :
    ∀ l : List Nat, anyKey kp l = true ↔ ∃ i ∈ l, kp i = 1 := by
  intro l
  induction l with
  | nil => simp [anyKey]
  | cons a l ih => simp [anyKey, ih]

theorem scanKeys_nopress (kp : Nat → Nat) :
    ∀ (l : List Nat) (v : Nat), (∀ i ∈ l, kp i ≠ 1) → scanKeys kp v l = v := by
  intro l
  induction l with
  | nil => intro v _; rfl
  | cons a l ih =>
    intro v hnp
    have ha : kp a ≠ 1 := hnp a (List.mem_cons_self a l)
    show scanKeys kp (if kp a = 1 then a else v) l = v
    rw [if_neg ha]
    exact ih v (fun i hi => hnp i (List.mem_cons_of_mem a hi))

theorem scanKeys_append (kp : Nat → Nat) :
    ∀ (l1 l2 : List Nat) (v : Nat),
      scanKeys kp v (l1 ++ l2) = scanKeys kp (scanKeys kp v l1) l2 := by
  intro l1
  induction l1 with
  | nil => intro l2 v; rfl
  | cons a l ih => intro l2 v; exact ih l2 _

theorem scanKeys_range16_highest (kp : Nat → Nat) (v k : Nat)
    (hk16 : k < 16) (hk : kp k = 1)
    (habove : ∀ i, k < i → i < 16 → kp i ≠ 1) :
    scanKeys kp v (List.range 16) = k := by
  have h16 : (16 : Nat) = (k + 1) + (15 - k) := by omega
  rw [h16, List.range_add, scanKeys_append, List.range_succ, scanKeys_append]
  have hone : scanKeys kp (scanKeys kp v (List.range k)) [k] = k := by
    show scanKeys kp (if kp k = 1 then k else _) [] = k
    rw [if_pos hk]
    rfl
  rw [hone]
  apply scanKeys_nopress
  intro i hi
  rcases List.mem_map.mp hi with ⟨x, hx, rfl⟩
  have hx15 : x < 15 - k := List.mem_range.mp hx
  exact habove (k + 1 + x) (by omega) (by omega)

/-- Claim C10, counterexample: executing `Fx0A` with all 16 keys up does
not return control to the driver as an awaiting-input state; the busy
loop's condition depends only on the keypad, which the loop never writes,
so the call into `ExecuteOpcode` never returns (modelled `diverge`). -/
theorem C10_cex : ExecuteOpcode 0 NewChip8 0xF00A = Outcome.diverge ∧
    (∀ op s', ExecuteOpcode 0 NewChip8 0xF00A ≠ Outcome.ok op s') := by
  refine ⟨rfl, ?_⟩
  intro op s' h
  cases h

/-- Claim C10, amended: `Fx0A` busy-waits inside `ExecuteOpcode` without
yielding: one step with all 16 keys up loops forever and never returns
control; when at least one key is down the instruction completes at once,
storing the highest-index down key in `V[x]` and advancing `PC` by 2. -/
theorem C10_amended_keywait (rnd : Nat) (s : Chip8) (op : Nat)
    (hF : op &&& 0xF000 = 0xF000) (hA : op &&& 0x00FF = 0x0A) :
    ((∀ i, i < 16 → s.keypad i ≠ 1) → ExecuteOpcode rnd s op = Outcome.diverge)
  ∧ (∀ k, k < 16 → s.keypad k = 1 →
      (∀ i, k < i → i < 16 → s.keypad i ≠ 1) →
      ∃ s', ExecuteOpcode rnd s op = Outcome.ok op s' ∧
        s'.V ((op &&& 0x0F00) >>> 8) = k ∧ s'.PC = (s.PC + 2) % 65536) := by
  constructor
  · intro hnone
    have hany : anyKey s.keypad (List.range 16) = false := by
      rw [← Bool.not_eq_true, anyKey_iff]
      rintro ⟨i, hi, hkey⟩
      exact hnone i (List.mem_range.mp hi) hkey
    unfold ExecuteOpcode
    simp only [hF, hA]
    norm_num [hany]
  · intro k hk16 hk habove
    have hany : anyKey s.keypad (List.range 16) = true :=
      (anyKey_iff s.keypad (List.range 16)).mpr ⟨k, List.mem_range.mpr hk16, hk⟩
    refine ⟨{ s with
        V := updf s.V ((op &&& 0x0F00) >>> 8)
               (scanKeys s.keypad (s.V ((op &&& 0x0F00) >>> 8)) (List.range 16)),
        PC := (s.PC + 2) % 65536 }, ?_, ?_, rfl⟩
    · unfold ExecuteOpcode
      simp only [hF, hA]
      norm_num [hany]
    · simp [updf]
      exact scanKeys_range16_highest s.keypad _ k hk16 hk habove

/-- Fresh machine with keys 3 and 7 down. -/
def keysState : Chip8 :=
  { NewChip8 with keypad := updf (updf NewChip8.keypad 3 1) 7 1 }

/-- Claim C10, witness for the amended theorem: all keys up diverges, and
with keys 3 and 7 down, `F20A` stores 7 (the highest) in `V[2]`. -/
theorem C10_witness :
    (ExecuteOpcode 0 NewChip8 0xF00A = Outcome.diverge) ∧
    (∃ s', ExecuteOpcode 0 keysState 0xF20A = Outcome.ok 0xF20A s' ∧
      s'.V ((0xF20A &&& 0x0F00) >>> 8) = 7 ∧
      s'.PC = (keysState.PC + 2) % 65536) := by
  constructor
  · exact (C10_amended_keywait 0 NewChip8 0xF00A (by decide) (by decide)).1
      (by intro i _ hcon; exact absurd hcon (by simp [NewChip8]))
  · exact (C10_amended_keywait 0 keysState 0xF20A (by decide) (by decide)).2
      7 (by decide) (by decide) (by intro i h1 h2; interval_cases i <;> decide)

/-! Claim C7.  The `Dxyn` double-draw analysis: pointwise description of one
draw (`drawBits_ok`, `drawSprite_ok`), invariance of the draw under updates
of register 15 when neither operand register is 15 (`drawBits_congrV`,
`drawSprite_congrV`), and the double-draw theorem. -/

theorem updD_self (d : Nat → Nat → Nat) (r c v : Nat) : updD d r c v r c = v := by
  simp [updD]

theorem updD_ne_row (d : Nat → Nat → Nat) (r c v r' c' : Nat) (h : r' ≠ r) :
    updD d r c v r' c' = d r' c' := by
  simp [updD, h]

theorem updD_ne_col (d : Nat → Nat → Nat) (r c v r' c' : Nat) (h : c' ≠ c) :
    updD d r c v r' c' = d r' c' := by
  simp [updD, h]

theorem xor1_xor1 (a : Nat) : a ^^^ 1 ^^^ 1 = a := by
  rw [Nat.xor_assoc, Nat.xor_self, Nat.xor_zero]

theorem xor1_eq_one (a : Nat) : a ^^^ 1 = 1 ↔ a = 0 := by
  constructor
  · intro h
    have h2 := congrArg (fun t => t ^^^ 1) h
    simpa [xor1_xor1] using h2
  · rintro rfl
    rfl

theorem drawBits_ok (p : Nat) (V : Nat → Nat) (x y j : Nat)
    (hx : x ≠ 15) (hy : y ≠ 15) :
    ∀ (is : List Nat) (d : Nat → Nat → Nat) (vf : Nat),
      (∀ i ∈ is, p &&& (0x80 >>> i) ≠ 0 →
        (V y + j % 256) % 256 < 128 ∧ (V x + i % 256) % 256 < 64) →
      is.Pairwise (fun a b => (V x + a % 256) % 256 ≠ (V x + b % 256) % 256) →
      ∃ g w, drawBits p V x y j is d vf = some (g, w)
        ∧ (∀ c', (∃ i ∈ is, p &&& (0x80 >>> i) ≠ 0 ∧ (V x + i % 256) % 256 = c') →
            g ((V y + j % 256) % 256) c' = d ((V y + j % 256) % 256) c' ^^^ 1)
        ∧ (∀ r' c', r' ≠ (V y + j % 256) % 256 → g r' c' = d r' c')
        ∧ (∀ c', (∀ i ∈ is, p &&& (0x80 >>> i) ≠ 0 → (V x + i % 256) % 256 ≠ c') →
            g ((V y + j % 256) % 256) c' = d ((V y + j % 256) % 256) c')
        ∧ ((∃ i ∈ is, p &&& (0x80 >>> i) ≠ 0 ∧
              d ((V y + j % 256) % 256) ((V x + i % 256) % 256) = 1) → w = 1)
        ∧ ((∀ i ∈ is, p &&& (0x80 >>> i) ≠ 0 →
              d ((V y + j % 256) % 256) ((V x + i % 256) % 256) ≠ 1) → w = vf) := by
  intro is
  induction is with
  | nil =>
    intro d vf _ _
    refine ⟨d, vf, rfl, ?_, ?_, ?_, ?_, ?_⟩
    · rintro c' ⟨i, hmem, -⟩
      exact absurd hmem (List.not_mem_nil i)
    · intro r' c' _
      rfl
    · intro c' _
      rfl
    · rintro ⟨i, hmem, -⟩
      exact absurd hmem (List.not_mem_nil i)
    · intro _
      rfl
  | cons i is ih =>
    intro d vf hin hdist
    rw [List.pairwise_cons] at hdist
    obtain ⟨hdhead, hdtail⟩ := hdist
    by_cases hbit0 : p &&& (0x80 >>> i) = 0
    · -- bit not set: this iteration is a no-op
      have hin' : ∀ i' ∈ is, p &&& (0x80 >>> i') ≠ 0 →
          (V y + j % 256) % 256 < 128 ∧ (V x + i' % 256) % 256 < 64 :=
        fun i' hi' => hin i' (List.mem_cons_of_mem _ hi')
      rcases ih d vf hin' hdtail with ⟨g, w, heq, hA, hB1, hB2, hC1, hC2⟩
      refine ⟨g, w, ?_, ?_, hB1, ?_, ?_, ?_⟩
      · unfold drawBits
        simp only [hbit0, ne_eq, not_true_eq_false, if_false, ite_not]
        exact heq
      · rintro c' ⟨i0, hmem, hb, hcol⟩
        rcases List.mem_cons.mp hmem with rfl | hmem'
        · exact absurd hbit0 hb
        · exact hA c' ⟨i0, hmem', hb, hcol⟩
      · intro c' hno
        exact hB2 c' (fun i' hi' hb => hno i' (List.mem_cons_of_mem _ hi') hb)
      · rintro ⟨i0, hmem, hb, hone⟩
        rcases List.mem_cons.mp hmem with rfl | hmem'
        · exact absurd hbit0 hb
        · exact hC1 ⟨i0, hmem', hb, hone⟩
      · intro hall
        exact hC2 (fun i' hi' hb => hall i' (List.mem_cons_of_mem _ hi') hb)
    · -- bit set: XOR the cell, maybe set the collision flag
      obtain ⟨hr, hc⟩ := hin i (List.mem_cons_self i is) hbit0
      have hin' : ∀ i' ∈ is, p &&& (0x80 >>> i') ≠ 0 →
          (V y + j % 256) % 256 < 128 ∧ (V x + i' % 256) % 256 < 64 :=
        fun i' hi' => hin i' (List.mem_cons_of_mem _ hi')
      rcases ih (updD d ((V y + j % 256) % 256) ((V x + i % 256) % 256)
                  (d ((V y + j % 256) % 256) ((V x + i % 256) % 256) ^^^ 1))
                (if d ((V y + j % 256) % 256) ((V x + i % 256) % 256) = 1 then 1 else vf)
                hin' hdtail with ⟨g, w, heq, hA, hB1, hB2, hC1, hC2⟩
      refine ⟨g, w, ?_, ?_, ?_, ?_, ?_, ?_⟩
      · unfold drawBits
        simp only [hbit0, ne_eq, not_false_eq_true, if_true, if_neg hx, if_neg hy, hr, hc,
          and_self, ite_true]
        exact heq
      · rintro c' ⟨i0, hmem, hb, hcol⟩
        rcases List.mem_cons.mp hmem with rfl | hmem'
        · -- the head bit's own column: untouched afterwards, one XOR
          subst hcol
          have hnotail : ∀ i' ∈ is, p &&& (0x80 >>> i') ≠ 0 →
              (V x + i' % 256) % 256 ≠ (V x + i0 % 256) % 256 :=
            fun i' hi' _ => (hdhead i' hi').symm
          rw [hB2 _ hnotail, updD_self]
        · -- a later bit's column: one XOR from the tail, base value unchanged
          have hcolne : c' ≠ (V x + i % 256) % 256 := by
            rcases hcol with rfl
            exact fun hcon => (hdhead i0 hmem') hcon.symm
          rw [hA c' ⟨i0, hmem', hb, hcol⟩, updD_ne_col _ _ _ _ _ _ hcolne]
      · intro r' c' hrne
        rw [hB1 r' c' hrne, updD_ne_row _ _ _ _ _ _ hrne]
      · intro c' hno
        have hcolne : c' ≠ (V x + i % 256) % 256 :=
          fun hcon => hno i (List.mem_cons_self i is) hbit0 hcon.symm
        have hno' : ∀ i' ∈ is, p &&& (0x80 >>> i') ≠ 0 →
            (V x + i' % 256) % 256 ≠ c' :=
          fun i' hi' hb => hno i' (List.mem_cons_of_mem _ hi') hb
        rw [hB2 c' hno', updD_ne_col _ _ _ _ _ _ hcolne]
      · rintro ⟨i0, hmem, hb, hone⟩
        rcases List.mem_cons.mp hmem with rfl | hmem'
        · -- collision at the head bit: vf1 = 1 and 1 is absorbing
          rw [if_pos hone] at hC2
          by_cases hex : ∃ i' ∈ is, p &&& (0x80 >>> i') ≠ 0 ∧
              (updD d ((V y + j % 256) % 256) ((V x + i0 % 256) % 256)
                (d ((V y + j % 256) % 256) ((V x + i0 % 256) % 256) ^^^ 1))
                ((V y + j % 256) % 256) ((V x + i' % 256) % 256) = 1
          · exact hC1 hex
          · push_neg at hex
            exact hC2 (fun i' hi' hb => hex i' hi' hb)
        · -- collision at a later bit, whose cell the head did not touch
          have hcolne : (V x + i0 % 256) % 256 ≠ (V x + i % 256) % 256 :=
            fun hcon => (hdhead i0 hmem') hcon.symm
          apply hC1
          refine ⟨i0, hmem', hb, ?_⟩
          rw [updD_ne_col _ _ _ _ _ _ hcolne]
          exact hone
      · intro hall
        have hhead : d ((V y + j % 256) % 256) ((V x + i % 256) % 256) ≠ 1 :=
          hall i (List.mem_cons_self i is) hbit0
        rw [if_neg hhead] at hC2
        apply hC2
        intro i' hi' hb
        have hcolne : (V x + i' % 256) % 256 ≠ (V x + i % 256) % 256 :=
          fun hcon => (hdhead i' hi') hcon.symm
        rw [updD_ne_col _ _ _ _ _ _ hcolne]
        exact hall i' (List.mem_cons_of_mem _ hi') hb

theorem colsPairwise (V : Nat → Nat) (x : Nat) :
    (List.range 8).Pairwise (fun a b => (V x + a % 256) % 256 ≠ (V x + b % 256) % 256) := by
  refine List.Pairwise.imp_of_mem ?_ (List.pairwise_lt_range 8)
  intro a b ha hb hab
  have ha8 : a < 8 := List.mem_range.mp ha
  have hb8 : b < 8 := List.mem_range.mp hb
  omega

theorem drawSprite_ok (mem : Nat → Nat) (Ireg : Nat) (V : Nat → Nat) (x y : Nat)
    (hx : x ≠ 15) (hy : y ≠ 15) :
    ∀ (js : List Nat) (d : Nat → Nat → Nat) (vf : Nat),
      (∀ j ∈ js, (Ireg + j) % 65536 < 4096) →
      (∀ j ∈ js, ∀ i ∈ List.range 8, mem ((Ireg + j) % 65536) &&& (0x80 >>> i) ≠ 0 →
        (V y + j % 256) % 256 < 128 ∧ (V x + i % 256) % 256 < 64) →
      js.Pairwise (fun a b => (V y + a % 256) % 256 ≠ (V y + b % 256) % 256) →
      ∃ g w, drawSprite mem Ireg V x y js d vf = some (g, w)
        ∧ (∀ j ∈ js, ∀ c',
            (∃ i ∈ List.range 8, mem ((Ireg + j) % 65536) &&& (0x80 >>> i) ≠ 0 ∧
              (V x + i % 256) % 256 = c') →
            g ((V y + j % 256) % 256) c' = d ((V y + j % 256) % 256) c' ^^^ 1)
        ∧ (∀ r' c', (∀ j ∈ js, r' ≠ (V y + j % 256) % 256) → g r' c' = d r' c')
        ∧ (∀ j ∈ js, ∀ c',
            (∀ i ∈ List.range 8, mem ((Ireg + j) % 65536) &&& (0x80 >>> i) ≠ 0 →
              (V x + i % 256) % 256 ≠ c') →
            g ((V y + j % 256) % 256) c' = d ((V y + j % 256) % 256) c')
        ∧ ((∃ j ∈ js, ∃ i ∈ List.range 8,
              mem ((Ireg + j) % 65536) &&& (0x80 >>> i) ≠ 0 ∧
              d ((V y + j % 256) % 256) ((V x + i % 256) % 256) = 1) → w = 1)
        ∧ ((∀ j ∈ js, ∀ i ∈ List.range 8,
              mem ((Ireg + j) % 65536) &&& (0x80 >>> i) ≠ 0 →
              d ((V y + j % 256) % 256) ((V x + i % 256) % 256) ≠ 1) → w = vf) := by
  intro js
  induction js with
  | nil =>
    intro d vf _ _ _
    refine ⟨d, vf, rfl, ?_, ?_, ?_, ?_, ?_⟩
    · rintro j hmem
      exact absurd hmem (List.not_mem_nil j)
    · intro r' c' _
      rfl
    · rintro j hmem
      exact absurd hmem (List.not_mem_nil j)
    · rintro ⟨j, hmem, -⟩
      exact absurd hmem (List.not_mem_nil j)
    · intro _
      rfl
  | cons j js ih =>
    intro d vf haddr hin hpair
    rw [List.pairwise_cons] at hpair
    obtain ⟨hrowhead, hrowtail⟩ := hpair
    have haj : (Ireg + j) % 65536 < 4096 := haddr j (List.mem_cons_self j js)
    rcases drawBits_ok (mem ((Ireg + j) % 65536)) V x y j hx hy (List.range 8) d vf
        (fun i hi hb => hin j (List.mem_cons_self j js) i hi hb) (colsPairwise V x) with
      ⟨g1, w1, heq1, hA1, hB1one, hB2one, hC1one, hC2one⟩
    rcases ih g1 w1 (fun j' hj' => haddr j' (List.mem_cons_of_mem _ hj'))
        (fun j' hj' => hin j' (List.mem_cons_of_mem _ hj')) hrowtail with
      ⟨g, w, heq, hA, hB1, hB2, hC1, hC2⟩
    refine ⟨g, w, ?_, ?_, ?_, ?_, ?_, ?_⟩
    · unfold drawSprite
      simp only [haj, ite_true, if_true, heq1]
      exact heq
    · intro j0 hj0 c' hhit
      rcases List.mem_cons.mp hj0 with rfl | hj0'
      · rw [hB1 _ c' (fun j' hj' => hrowhead j' hj'), hA1 c' hhit]
      · rw [hA j0 hj0' c' hhit, hB1one _ c' (Ne.symm (hrowhead j0 hj0'))]
    · intro r' c' hall
      rw [hB1 r' c' (fun j' hj' => hall j' (List.mem_cons_of_mem _ hj')),
          hB1one r' c' (hall j (List.mem_cons_self j js))]
    · intro j0 hj0 c' hno
      rcases List.mem_cons.mp hj0 with rfl | hj0'
      · rw [hB1 _ c' (fun j' hj' => hrowhead j' hj'), hB2one c' hno]
      · rw [hB2 j0 hj0' c' hno, hB1one _ c' (Ne.symm (hrowhead j0 hj0'))]
    · rintro ⟨j0, hj0, i0, hi0, hb, hone⟩
      rcases List.mem_cons.mp hj0 with rfl | hj0'
      · have hw1 : w1 = 1 := hC1one ⟨i0, hi0, hb, hone⟩
        by_cases hex : ∃ j' ∈ js, ∃ i' ∈ List.range 8,
            mem ((Ireg + j') % 65536) &&& (0x80 >>> i') ≠ 0 ∧
            g1 ((V y + j' % 256) % 256) ((V x + i' % 256) % 256) = 1
        · exact hC1 hex
        · push_neg at hex
          rw [hC2 (fun j' hj' i' hi' hb' => hex j' hj' i' hi' hb'), hw1]
      · apply hC1
        refine ⟨j0, hj0', i0, hi0, hb, ?_⟩
        rw [hB1one _ _ (Ne.symm (hrowhead j0 hj0'))]
        exact hone
    · intro hall
      have hw1 : w1 = vf :=
        hC2one (fun i' hi' hb => hall j (List.mem_cons_self j js) i' hi' hb)
      rw [← hw1]
      apply hC2
      intro j' hj' i' hi' hb
      rw [hB1one _ _ (Ne.symm (hrowhead j' hj'))]
      exact hall j' (List.mem_cons_of_mem _ hj') i' hi' hb

theorem drawBits_congrV (p : Nat) (V V' : Nat → Nat) (x y j : Nat)
    (hx : x ≠ 15) (hy : y ≠ 15) (hVx : V' x = V x) (hVy : V' y = V y) :
    ∀ (is : List Nat) (d : Nat → Nat → Nat) (vf : Nat),
      drawBits p V' x y j is d vf = drawBits p V x y j is d vf := by
  intro is
  induction is with
  | nil => intro d vf; rfl
  | cons i is ih =>
    intro d vf
    unfold drawBits
    simp only [if_neg hx, if_neg hy, hVx, hVy]
    repeat' split
    all_goals first | rfl | exact ih _ _

theorem drawSprite_congrV (mem : Nat → Nat) (Ireg : Nat) (V V' : Nat → Nat) (x y : Nat)
    (hx : x ≠ 15) (hy : y ≠ 15) (hVx : V' x = V x) (hVy : V' y = V y) :
    ∀ (js : List Nat) (d : Nat → Nat → Nat) (vf : Nat),
      drawSprite mem Ireg V' x y js d vf = drawSprite mem Ireg V x y js d vf := by
  intro js
  induction js with
  | nil => intro d vf; rfl
  | cons j js ih =>
    intro d vf
    unfold drawSprite
    dsimp only
    split
    · rw [drawBits_congrV _ V V' x y j hx hy hVx hVy]
      cases hdb : drawBits (mem ((Ireg + j) % 65536)) V x y j (List.range 8) d vf with
      | none => rfl
      | some pr => exact ih pr.1 pr.2
    · rfl

theorem drawSprite_twice (mem : Nat → Nat) (Ireg : Nat) (V : Nat → Nat) (x y n : Nat)
    (hx : x ≠ 15) (hy : y ≠ 15) (hn : n ≤ 15)
    (d : Nat → Nat → Nat)
    (haddr : ∀ j, j < n → (Ireg + j) % 65536 < 4096)
    (hin : ∀ j, j < n → ∀ i, i < 8 →
      mem ((Ireg + j) % 65536) &&& (0x80 >>> i) ≠ 0 →
      (V y + j % 256) % 256 < 128 ∧ (V x + i % 256) % 256 < 64) :
    ∃ g1 w1 g2 w2,
      drawSprite mem Ireg V x y (List.range n) d 0 = some (g1, w1) ∧
      drawSprite mem Ireg V x y (List.range n) g1 0 = some (g2, w2) ∧
      g2 = d ∧
      (w2 = 1 ↔ ∃ j, j < n ∧ ∃ i, i < 8 ∧
        mem ((Ireg + j) % 65536) &&& (0x80 >>> i) ≠ 0 ∧
        d ((V y + j % 256) % 256) ((V x + i % 256) % 256) = 0) := by
  have hrowpair : (List.range n).Pairwise
      (fun a b => (V y + a % 256) % 256 ≠ (V y + b % 256) % 256) := by
    refine List.Pairwise.imp_of_mem ?_ (List.pairwise_lt_range n)
    intro a b ha hb hab
    have ha' : a < n := List.mem_range.mp ha
    have hb' : b < n := List.mem_range.mp hb
    omega
  have haddr' : ∀ j ∈ List.range n, (Ireg + j) % 65536 < 4096 :=
    fun j hj => haddr j (List.mem_range.mp hj)
  have hin' : ∀ j ∈ List.range n, ∀ i ∈ List.range 8,
      mem ((Ireg + j) % 65536) &&& (0x80 >>> i) ≠ 0 →
      (V y + j % 256) % 256 < 128 ∧ (V x + i % 256) % 256 < 64 :=
    fun j hj i hi hb => hin j (List.mem_range.mp hj) i (List.mem_range.mp hi) hb
  rcases drawSprite_ok mem Ireg V x y hx hy (List.range n) d 0 haddr' hin' hrowpair with
    ⟨g1, w1, hdraw1, hA1, hB11, hB21, hC11, hC21⟩
  rcases drawSprite_ok mem Ireg V x y hx hy (List.range n) g1 0 haddr' hin' hrowpair with
    ⟨g2, w2, hdraw2, hA2, hB12, hB22, hC12, hC22⟩
  refine ⟨g1, w1, g2, w2, hdraw1, hdraw2, ?_, ?_⟩
  · funext r' c'
    by_cases hrow : ∃ j ∈ List.range n, r' = (V y + j % 256) % 256
    · obtain ⟨j0, hj0, rfl⟩ := hrow
      by_cases hcol : ∃ i ∈ List.range 8,
          mem ((Ireg + j0) % 65536) &&& (0x80 >>> i) ≠ 0 ∧ (V x + i % 256) % 256 = c'
      · rw [hA2 j0 hj0 c' hcol, hA1 j0 hj0 c' hcol, xor1_xor1]
      · push_neg at hcol
        rw [hB22 j0 hj0 c' hcol, hB21 j0 hj0 c' hcol]
    · push_neg at hrow
      rw [hB12 r' c' (fun j' hj' => hrow j' hj'), hB11 r' c' (fun j' hj' => hrow j' hj')]
  · constructor
    · intro hw2
      by_contra hno
      push_neg at hno
      have hquiet : w2 = 0 := by
        apply hC22
        intro j' hj' i' hi' hb
        rw [hA1 j' hj' _ ⟨i', hi', hb, rfl⟩]
        rw [ne_eq, xor1_eq_one]
        exact hno j' (List.mem_range.mp hj') i' (List.mem_range.mp hi') hb
      rw [hquiet] at hw2
      exact absurd hw2 (by norm_num)
    · rintro ⟨j0, hj0n, i0, hi0n, hb, hzero⟩
      apply hC12
      refine ⟨j0, List.mem_range.mpr hj0n, i0, List.mem_range.mpr hi0n, hb, ?_⟩
      rw [hA1 j0 (List.mem_range.mpr hj0n) _ ⟨i0, List.mem_range.mpr hi0n, hb, rfl⟩, hzero]
      decide

theorem exec_dxyn_eq (rnd : Nat) (s : Chip8) (op : Nat) (hD : op &&& 0xF000 = 0xD000) :
    ExecuteOpcode rnd s op =
      match drawSprite s.memory s.I s.V ((op &&& 0x0F00) >>> 8) ((op &&& 0x00F0) >>> 4)
          (List.range (op &&& 0x000F)) s.display 0 with
      | some (d1, vf1) =>
        Outcome.ok op { s with display := d1, V := updf s.V 15 vf1,
                               PC := (s.PC + 2) % 65536 }
      | none => Outcome.panic := by
  unfold ExecuteOpcode
  simp only [hD]
  norm_num

theorem C7_amended_double_draw (rnd : Nat) (s : Chip8) (op : Nat)
    (hD : op &&& 0xF000 = 0xD000)
    (hx : (op &&& 0x0F00) >>> 8 ≠ 15) (hy : (op &&& 0x00F0) >>> 4 ≠ 15)
    (haddr : ∀ j, j < op &&& 0x000F → (s.I + j) % 65536 < 4096)
    (hin : ∀ j, j < op &&& 0x000F → ∀ i, i < 8 →
      s.memory ((s.I + j) % 65536) &&& (0x80 >>> i) ≠ 0 →
      (s.V ((op &&& 0x00F0) >>> 4) + j % 256) % 256 < 128 ∧
      (s.V ((op &&& 0x0F00) >>> 8) + i % 256) % 256 < 64) :
    ∃ s1 s2, ExecuteOpcode rnd s op = Outcome.ok op s1 ∧
      ExecuteOpcode rnd s1 op = Outcome.ok op s2 ∧
      s2.display = s.display ∧
      (s2.V 15 = 1 ↔ ∃ j, j < op &&& 0x000F ∧ ∃ i, i < 8 ∧
        s.memory ((s.I + j) % 65536) &&& (0x80 >>> i) ≠ 0 ∧
        s.display ((s.V ((op &&& 0x00F0) >>> 4) + j % 256) % 256)
                  ((s.V ((op &&& 0x0F00) >>> 8) + i % 256) % 256) = 0) := by
  have hn : op &&& 0x000F ≤ 15 := Nat.and_le_right
  rcases drawSprite_twice s.memory s.I s.V ((op &&& 0x0F00) >>> 8) ((op &&& 0x00F0) >>> 4)
      (op &&& 0x000F) hx hy hn s.display haddr hin with
    ⟨g1, w1, g2, w2, hdraw1, hdraw2, hrestore, hiff⟩
  refine ⟨{ s with display := g1, V := updf s.V 15 w1, PC := (s.PC + 2) % 65536 },
          { s with display := g2, V := updf (updf s.V 15 w1) 15 w2,
                   PC := ((s.PC + 2) % 65536 + 2) % 65536 }, ?_, ?_, ?_, ?_⟩
  · rw [exec_dxyn_eq rnd s op hD, hdraw1]
  · rw [exec_dxyn_eq rnd _ op hD]
    dsimp only
    rw [drawSprite_congrV s.memory s.I s.V (updf s.V 15 w1)
          ((op &&& 0x0F00) >>> 8) ((op &&& 0x00F0) >>> 4) hx hy
          (updf_ne _ _ _ _ hx) (updf_ne _ _ _ _ hy), hdraw2]
  · exact hrestore
  · show updf (updf s.V 15 w1) 15 w2 15 = 1 ↔ _
    rw [updf_self]
    exact hiff

/-- Fresh machine with a one-byte sprite `0x80` at `I = 0x300` and
`V[15] = 5`, for a draw whose x operand register is `V[15]` itself. -/
def drawVFState : Chip8 :=
  { NewChip8 with I := 0x300, V := updf NewChip8.V 15 5,
                  memory := updf NewChip8.memory 0x300 0x80 }

/-- Claim C7, counterexample: `DF01` draws with `x = 15`, so the draw's
own `V[F] := 0` / collision writes change the sprite's column base
between (and even within) the two draws; drawing twice from an all-zero
framebuffer leaves pixel `(0,0)` set instead of restoring it to 0. -/
theorem C7_cex : okDisp (execTwice 0 drawVFState 0xDF01) 0 0 = some 1 ∧
    drawVFState.display 0 0 = 0 := by decide

/-- Fresh machine with a one-row solid sprite `0xFF` at `I = 0x300`,
drawn at origin (`V[0] = V[1] = 0`). -/
def drawOriginState : Chip8 :=
  { NewChip8 with I := 0x300, memory := updf NewChip8.memory 0x300 0xFF }

/-- Claim C7, witness for the amended theorem: `D011` (x = 0, y = 1, one
row) drawn twice at the origin. -/
theorem C7_witness :
    ∃ s1 s2, ExecuteOpcode 0 drawOriginState 0xD011 = Outcome.ok 0xD011 s1 ∧
      ExecuteOpcode 0 s1 0xD011 = Outcome.ok 0xD011 s2 ∧
      s2.display = drawOriginState.display ∧
      (s2.V 15 = 1 ↔ ∃ j, j < 0xD011 &&& 0x000F ∧ ∃ i, i < 8 ∧
        drawOriginState.memory ((drawOriginState.I + j) % 65536) &&& (0x80 >>> i) ≠ 0 ∧
        drawOriginState.display
          ((drawOriginState.V ((0xD011 &&& 0x00F0) >>> 4) + j % 256) % 256)
          ((drawOriginState.V ((0xD011 &&& 0x0F00) >>> 8) + i % 256) % 256) = 0) :=
  C7_amended_double_draw 0 drawOriginState 0xD011 (by decide) (by decide) (by decide)
    (by decide) (by decide)
